import Mathlib

/-!
Verification of the Searchly server (`src/server/app.py`): a shallow
embedding of its SSE streaming generator, the LangGraph turn router,
the tool-execution node, and the search-result URL extraction policy,
together with theorems about the claims of the specification.

Python values that flow through `json.dumps` / `json.loads` are modelled
by the inductive type `Json`; Python dicts are association lists with
first-match lookup (Python dict keys are unique, so first-match agrees).
The async event stream consumed by `generate_chat_responses` is modelled
as a list of `Except String Event`: an `Except.error` entry models the
iteration itself raising an exception (model call failure etc.), whose
message is the `str(e)` of the exception.
-/

namespace Searchly

/-- A JSON-serialisable Python value (`None`, `bool`, `int`, `str`, `list`, `dict`). -/
inductive Json where
  | null : Json
  | bool (b : Bool) : Json
  | num (n : Int) : Json
  | str (s : String) : Json
  | arr (items : List Json) : Json
  | obj (fields : List (String × Json)) : Json

/-- Python dict lookup `d.get(k)` on the association-list model (keys unique). -/
def lookupJ : List (String × Json) → String → Option Json
  | [], _ => none
  | (k, v) :: rest, key => if k = key then some v else lookupJ rest key

/-- Python truthiness of a `Json` value (`bool(x)`). -/
def pyTruthy : Json → Bool
  | Json.null => false
  | Json.bool b => b
  | Json.num n => n ≠ 0
  | Json.str s => s ≠ ""
  | Json.arr items => !items.isEmpty
  | Json.obj fields => !fields.isEmpty

/-- Escape one character the way `json.dumps` does (common cases). -/
def escapeChar (c : Char) : String :=
  if c = '"' then "\\\""
  else if c = '\\' then "\\\\"
  else if c = '\n' then "\\n"
  else if c = '\t' then "\\t"
  else if c = '\r' then "\\r"
  else String.singleton c

/-- Escape a string body the way `json.dumps` does. -/
def escapeString (s : String) : String :=
  String.join (s.data.map escapeChar)

mutual

/-- Model of Python `json.dumps` with its default separators `", "` and `": "`. -/
def dumps : Json → String
  | Json.null => "null"
  | Json.bool b => if b then "true" else "false"
  | Json.num n => toString n
  | Json.str s => "\"" ++ escapeString s ++ "\""
  | Json.arr items => "[" ++ dumpsItems items ++ "]"
  | Json.obj fields => "\x7b" ++ dumpsFields fields ++ "\x7d"

/-- Serialise the comma-separated items of a JSON array. -/
def dumpsItems : List Json → String
  | [] => ""
  | [x] => dumps x
  | x :: xs => dumps x ++ ", " ++ dumpsItems xs

/-- Serialise the comma-separated fields of a JSON object. -/
def dumpsFields : List (String × Json) → String
  | [] => ""
  | [(k, v)] => "\"" ++ escapeString k ++ "\": " ++ dumps v
  | (k, v) :: kvs => "\"" ++ escapeString k ++ "\": " ++ dumps v ++ ", " ++ dumpsFields kvs

end

/-- The `\x7b` character (left curly brace). -/
def lbrace : Char := Char.ofNat 123

/-- The `\x7d` character (right curly brace). -/
def rbrace : Char := Char.ofNat 125

/-- JSON whitespace. -/
def isWs (c : Char) : Bool :=
  c = ' ' || c = '\t' || c = '\n' || c = '\r'

/-- Drop leading JSON whitespace. -/
def skipWs : List Char → List Char
  | [] => []
  | c :: cs => if isWs c then skipWs cs else c :: cs

/-- Split off a run of leading decimal digits. -/
def takeDigits : List Char → List Char × List Char
  | [] => ([], [])
  | c :: cs =>
    if c.isDigit then
      let (ds, rest) := takeDigits cs
      (c :: ds, rest)
    else ([], c :: cs)

/-- Decimal digits to a natural number. -/
def digitsToNat (ds : List Char) : Nat :=
  ds.foldl (fun n c => n * 10 + (c.toNat - 48)) 0

/-- Parse the body of a JSON string literal after the opening quote:
returns the decoded characters and the remainder after the closing quote. -/
def parseStrChars : List Char → Option (List Char × List Char)
  | [] => none
  | c :: cs =>
    if c = '"' then some ([], cs)
    else if c = '\\' then
      match cs with
      | [] => none
      | e :: cs2 =>
        let dec : Option Char :=
          if e = '"' then some '"'
          else if e = '\\' then some '\\'
          else if e = '/' then some '/'
          else if e = 'n' then some '\n'
          else if e = 't' then some '\t'
          else if e = 'r' then some '\r'
          else none
        match dec with
        | some d =>
          match parseStrChars cs2 with
          | some (out, rest) => some (d :: out, rest)
          | none => none
        | none => none
    else
      match parseStrChars cs with
      | some (out, rest) => some (c :: out, rest)
      | none => none

mutual

/-- Fueled parser for one JSON value (model of the recursive part of `json.loads`). -/
def parseVal : Nat → List Char → Option (Json × List Char)
  | 0, _ => none
  | Nat.succ fuel, cs =>
    match skipWs cs with
    | [] => none
    | c :: rest =>
      if c = 'n' then
        match rest with
        | 'u' :: 'l' :: 'l' :: r => some (Json.null, r)
        | _ => none
      else if c = 't' then
        match rest with
        | 'r' :: 'u' :: 'e' :: r => some (Json.bool true, r)
        | _ => none
      else if c = 'f' then
        match rest with
        | 'a' :: 'l' :: 's' :: 'e' :: r => some (Json.bool false, r)
        | _ => none
      else if c = '"' then
        match parseStrChars rest with
        | some (out, r) => some (Json.str (String.mk out), r)
        | none => none
      else if c = '[' then
        match skipWs rest with
        | ']' :: r => some (Json.arr [], r)
        | _ =>
          match parseArrItems fuel rest with
          | some (xs, r) => some (Json.arr xs, r)
          | none => none
      else if c = lbrace then
        match skipWs rest with
        | d :: r =>
          if d = rbrace then some (Json.obj [], r)
          else
            match parseObjFields fuel rest with
            | some (kvs, r2) => some (Json.obj kvs, r2)
            | none => none
        | [] => none
      else if c = '-' then
        match takeDigits rest with
        | ([], _) => none
        | (ds, r) => some (Json.num (-(Int.ofNat (digitsToNat ds))), r)
      else if c.isDigit then
        match takeDigits (c :: rest) with
        | (ds, r) => some (Json.num (Int.ofNat (digitsToNat ds)), r)
      else none

/-- Fueled parser for the item list of a JSON array (after the opening bracket). -/
def parseArrItems : Nat → List Char → Option (List Json × List Char)
  | 0, _ => none
  | Nat.succ fuel, cs =>
    match parseVal fuel cs with
    | none => none
    | some (v, r) =>
      match skipWs r with
      | ',' :: r2 =>
        match parseArrItems fuel r2 with
        | some (vs, r3) => some (v :: vs, r3)
        | none => none
      | ']' :: r2 => some ([v], r2)
      | _ => none

/-- Fueled parser for the field list of a JSON object (after the opening brace). -/
def parseObjFields : Nat → List Char → Option (List (String × Json) × List Char)
  | 0, _ => none
  | Nat.succ fuel, cs =>
    match skipWs cs with
    | '"' :: r =>
      match parseStrChars r with
      | none => none
      | some (key, r2) =>
        match skipWs r2 with
        | ':' :: r3 =>
          match parseVal fuel r3 with
          | none => none
          | some (v, r4) =>
            match skipWs r4 with
            | ',' :: r5 =>
              match parseObjFields fuel r5 with
              | some (kvs, r6) => some ((String.mk key, v) :: kvs, r6)
              | none => none
            | d :: r5 =>
              if d = rbrace then some ([(String.mk key, v)], r5)
              else none
            | [] => none
        | _ => none
    | _ => none

end

/-- Model of Python `json.loads`: parse a whole string as one JSON value
(trailing whitespace allowed); `none` models `json.JSONDecodeError`. -/
def loads (s : String) : Option Json :=
  match parseVal (s.length + 1) s.data with
  | some (j, rest) => if skipWs rest = [] then some j else none
  | none => none

/-! ## Search-result URL extraction (app.py lines 255-269) -/

/-- The raw output of a tool-completion event: either a JSON string
(to be decoded with `json.loads`) or an already-structured value. -/
inductive RawOutput where
  | str (s : String)
  | structured (j : Json)

/-- `json.loads(output) if isinstance(output, str) else output`;
`none` models a raised (and caught) `json.JSONDecodeError`. -/
def parse_output : RawOutput → Option Json
  | RawOutput.str s => loads s
  | RawOutput.structured j => some j

/-- Body of the comprehension `[item["link"] for item in parsed["organic"]
if isinstance(item, dict) and "link" in item]`: a dict entry with a
`link` key contributes that value, anything else is skipped. -/
def organicLink : Json → Option Json
  | Json.obj kvs => lookupJ kvs "link"
  | _ => none

/-- Body of the comprehension `[item.get("link") or item.get("url", "")
for item in parsed if isinstance(item, dict)]`: non-dict entries are
skipped; for a dict entry, `link` if present and truthy, else `url` if
present, else the empty string. -/
def linkOrUrl : Json → Option Json
  | Json.obj kvs =>
    let l := (lookupJ kvs "link").getD Json.null
    some (if pyTruthy l then l else (lookupJ kvs "url").getD (Json.str ""))
  | _ => none

/-- URL extraction from the decoded search output (app.py lines 262-267).
When `organic` is present but not a list, iterating it either yields no
dict items (string, dict) or raises a `TypeError` that the surrounding
`except` clause swallows (number, bool, None) — in every case `urls`
stays `[]`, which the catch-all arm models. -/
def extract_from_parsed : Json → List Json
  | Json.obj kvs =>
    match lookupJ kvs "organic" with
    | some (Json.arr entries) => (entries.filterMap organicLink).take 8
    | _ => []
  | Json.arr items => (items.filterMap linkOrUrl).take 8
  | _ => []

/-- The full extraction policy applied to a raw tool output, including the
`json.loads` step; any parse failure yields the empty list. -/
def extract_urls (output : RawOutput) : List Json :=
  match parse_output output with
  | some parsed => extract_from_parsed parsed
  | none => []

/-! ## Messages, the turn router and the tool node (app.py lines 27-115) -/

/-- A Tool Invocation: `{"name": ..., "args": ..., "id": ...}`. -/
structure ToolCall where
  name : String
  args : List (String × Json)
  id : String

/-- A message of the conversation state; `tool_calls = none` models a
message object without a `tool_calls` attribute. -/
structure Message where
  content : Json
  tool_calls : Option (List ToolCall)

/-- The LangGraph `State` schema: a list of messages. -/
structure State where
  messages : List Message

/-- The sentinel node name LangGraph's `END` denotes. -/
def END : String := "__end__"

/-- `tools_router` (app.py lines 58-68): inspect the last message; route to
`"tool_node"` when it carries at least one tool call, to `END` otherwise.
The Python code indexes `state["messages"][-1]`, so a nonempty message
list is required. -/
def tools_router (state : State) (h : state.messages ≠ []) : String :=
  let last_message := state.messages.getLast h
  match last_message.tool_calls with
  | some tool_calls => if tool_calls.length > 0 then "tool_node" else END
  | none => END

/-- A `ToolMessage` produced by the tool node. -/
structure ToolMessage where
  content : String
  tool_call_id : String
  name : String

/-- `tool_node` (app.py lines 70-98): for each tool call of the last
message, execute it when its name is `"google_serper"` (querying the
external search collaborator `serper_results`, defaulting the `query`
argument to the empty string, serialising the result with `json.dumps`)
and silently skip it otherwise. -/
def tool_node (state : State) (h : state.messages ≠ []) (serper_results : Json → Json) :
    List ToolMessage :=
  let tool_calls := ((state.messages.getLast h).tool_calls).getD []
  tool_calls.filterMap (fun tool_call =>
    if tool_call.name == "google_serper" then
      let query := (lookupJ tool_call.args "query").getD (Json.str "")
      some { content := dumps (serper_results query)
             tool_call_id := tool_call.id
             name := tool_call.name }
    else none)

/-- The nodes of the conversation graph (plus the terminal pseudo-node). -/
inductive Node where
  | model
  | tool_node
  | terminal

/-- `graph_builder.set_entry_point("model")` (app.py line 109). -/
def entry_point : Node := Node.model

/-- The edges of the compiled graph (app.py lines 109-115): the model node
routes via `tools_router`, the tool node returns to the model node, the
terminal node has no successor. -/
def next_node (state : State) (h : state.messages ≠ []) : Node → Option Node
  | Node.model =>
    if tools_router state h = "tool_node" then some Node.tool_node else some Node.terminal
  | Node.tool_node => some Node.model
  | Node.terminal => none

/-! ## The SSE stream generator (app.py lines 162-277) -/

/-- A chunk delivered by an `on_chat_model_stream` event: either an
`AIMessageChunk` carrying its content, or an object of some other type
(identified by that type's name). -/
inductive Chunk where
  | aiMessage (content : Json)
  | other (typeName : String)

/-- `serialise_ai_message_chunk` (app.py lines 162-171): extract the content
of an `AIMessageChunk`; raise a `TypeError` for anything else. -/
def serialise_ai_message_chunk : Chunk → Except String Json
  | Chunk.aiMessage content => Except.ok content
  | Chunk.other typeName =>
    Except.error ("Object of type " ++ typeName ++ " is not correctly formatted for serialisation")

/-- The output object of an `on_chat_model_end` event; `tool_calls = none`
models the absence of the `tool_calls` attribute. -/
structure ModelOutput where
  tool_calls : Option (List ToolCall)

/-- One event of the `astream_events` stream, as far as the generator
inspects it. -/
inductive Event where
  | onChatModelStream (chunk : Chunk)
  | onChatModelEnd (output : ModelOutput)
  | onToolEnd (name : String) (output : RawOutput)
  | otherEvent (event_type : String)

/-- One item of the modelled event stream: `Except.error msg` models the
stream iteration itself raising an exception with `str(e) = msg`. -/
abbrev StreamItem := Except String Event

/-- One yielded SSE frame: its JSON payload, and whether the `"\n\n"`
terminator was appended (every yield in the generator appends it except
the server-not-ready error frame at app.py line 198). -/
structure Frame where
  payload : Json
  terminated : Bool

/-- The wire text of a frame: `f"data: {json.dumps(payload)}"` plus the
terminator when present. -/
def frameWire (f : Frame) : String :=
  "data: " ++ dumps f.payload ++ (if f.terminated then "\n\n" else "")

/-- The value of the `type` discriminator field of a frame's payload. -/
def frameTypeName (f : Frame) : Option String :=
  match f.payload with
  | Json.obj kvs =>
    match lookupJ kvs "type" with
    | some (Json.str t) => some t
    | _ => none
  | _ => none

/-- `{"type": "content", "content": chunk_content}` (app.py line 237). -/
def contentFrame (content : Json) : Frame :=
  ⟨Json.obj [("type", Json.str "content"), ("content", content)], true⟩

/-- `{"type": "search_start", "query": search_query}` (app.py line 251). -/
def searchStartFrame (query : Json) : Frame :=
  ⟨Json.obj [("type", Json.str "search_start"), ("query", query)], true⟩

/-- `{"type": "search_results", "urls": urls}` (app.py line 268). -/
def searchResultsFrame (urls : List Json) : Frame :=
  ⟨Json.obj [("type", Json.str "search_results"), ("urls", Json.arr urls)], true⟩

/-- `{"type": "checkpoint", "checkpoint_id": new_checkpoint_id}` (app.py line 219). -/
def checkpointFrame (checkpoint_id : String) : Frame :=
  ⟨Json.obj [("type", Json.str "checkpoint"), ("checkpoint_id", Json.str checkpoint_id)], true⟩

/-- `{"type": "error", "error": f"An error occurred: {str(e)}"}` (app.py line 272). -/
def errorFrame (msg : String) : Frame :=
  ⟨Json.obj [("type", Json.str "error"), ("error", Json.str ("An error occurred: " ++ msg))], true⟩

/-- The `{"type": "error", ...}` frame of app.py line 198, yielded without
the `"\n\n"` terminator. -/
def notReadyFrame : Frame :=
  ⟨Json.obj [("type", Json.str "error"), ("error", Json.str "Server not ready. Please try again.")],
   false⟩

/-- `{"type": "end"}` (app.py lines 199 and 276). -/
def endFrame : Frame :=
  ⟨Json.obj [("type", Json.str "end")], true⟩

/-- The frames the loop body (app.py lines 231-269) yields for one event, or
the message of the exception it raises. -/
def processEvent : Event → Except String (List Frame)
  | Event.onChatModelStream chunk =>
    match serialise_ai_message_chunk chunk with
    | Except.ok content => Except.ok [contentFrame content]
    | Except.error e => Except.error e
  | Event.onChatModelEnd output =>
    let tool_calls := output.tool_calls.getD []
    let search_calls := tool_calls.filter (fun call => call.name == "google_serper")
    match search_calls with
    | [] => Except.ok []
    | call :: _ =>
      Except.ok [searchStartFrame ((lookupJ call.args "query").getD (Json.str ""))]
  | Event.onToolEnd name output =>
    if name == "google_serper" then Except.ok [searchResultsFrame (extract_urls output)]
    else Except.ok []
  | Event.otherEvent _ => Except.ok []

/-- The frames of the `async for` loop wrapped in `try/except` (app.py
lines 230-273): events are processed in order until the stream is
exhausted or an exception is raised, in which case a single error frame
is yielded and processing stops. -/
def processEvents : List StreamItem → List Frame
  | [] => []
  | Except.error e :: _ => [errorFrame e]
  | Except.ok ev :: rest =>
    match processEvent ev with
    | Except.error e => [errorFrame e]
    | Except.ok frames => frames ++ processEvents rest

/-- The frames produced before any exception: the exception-free prefix of
the loop's output. -/
def cleanFrames : List StreamItem → List Frame
  | [] => []
  | Except.error _ :: _ => []
  | Except.ok ev :: rest =>
    match processEvent ev with
    | Except.error _ => []
    | Except.ok frames => frames ++ cleanFrames rest

/-- The message of the first exception the loop encounters, if any. -/
def firstError : List StreamItem → Option String
  | [] => none
  | Except.error e :: _ => some e
  | Except.ok ev :: rest =>
    match processEvent ev with
    | Except.error e => some e
    | Except.ok _ => firstError rest

/-- The error frame appended when an exception occurred. -/
def errTailFrames (events : List StreamItem) : List Frame :=
  match firstError events with
  | some e => [errorFrame e]
  | none => []

/-- The `thread_id` placed in the LangGraph config (app.py lines 209 and
223): the provided checkpoint id when present, else the fresh one. -/
def config_thread_id (checkpoint_id : Option String) (new_checkpoint_id : String) : String :=
  match checkpoint_id with
  | none => new_checkpoint_id
  | some c => c

/-- The checkpoint frames yielded before the event loop (app.py lines
202-228): exactly one for a new conversation, none otherwise. -/
def checkpointFrames (checkpoint_id : Option String) (new_checkpoint_id : String) : List Frame :=
  match checkpoint_id with
  | none => [checkpointFrame new_checkpoint_id]
  | some _ => []

/-- `generate_chat_responses` (app.py lines 174-277). `graph_ready` models
`graph is not None`; `new_checkpoint_id` models the `str(uuid4())` drawn
for a new conversation; `events` models the `astream_events` stream. -/
def generate_chat_responses (graph_ready : Bool) (checkpoint_id : Option String)
    (new_checkpoint_id : String) (events : List StreamItem) : List Frame :=
  if graph_ready then
    checkpointFrames checkpoint_id new_checkpoint_id ++ processEvents events ++ [endFrame]
  else
    [notReadyFrame, endFrame]

/-! ## Helper lemmas -/

theorem frameTypeName_contentFrame (c : Json) :
    frameTypeName (contentFrame c) = some "content" := rfl

theorem frameTypeName_searchStartFrame (q : Json) :
    frameTypeName (searchStartFrame q) = some "search_start" := rfl

theorem frameTypeName_searchResultsFrame (urls : List Json) :
    frameTypeName (searchResultsFrame urls) = some "search_results" := rfl

theorem frameTypeName_checkpointFrame (cid : String) :
    frameTypeName (checkpointFrame cid) = some "checkpoint" := rfl

theorem frameTypeName_errorFrame (msg : String) :
    frameTypeName (errorFrame msg) = some "error" := rfl

theorem frameTypeName_notReadyFrame : frameTypeName notReadyFrame = some "error" := rfl

theorem frameTypeName_endFrame : frameTypeName endFrame = some "end" := rfl

/-- Every frame the loop body yields for one successfully processed event is
terminated and carries one of the three in-stream payload types. -/
theorem processEvent_ok_mem {ev : Event} {frames : List Frame} {f : Frame}
    (hok : processEvent ev = Except.ok frames) (hf : f ∈ frames) :
    f.terminated = true ∧
    (frameTypeName f = some "content" ∨ frameTypeName f = some "search_start" ∨
     frameTypeName f = some "search_results") := by
  cases ev with
  | onChatModelStream chunk =>
    cases chunk with
    | aiMessage content =>
      simp [processEvent, serialise_ai_message_chunk] at hok
      subst hok
      simp at hf
      subst hf
      exact ⟨rfl, Or.inl rfl⟩
    | other typeName =>
      simp [processEvent, serialise_ai_message_chunk] at hok
  | onChatModelEnd output =>
    cases hs : (output.tool_calls.getD []).filter (fun call => call.name == "google_serper") with
    | nil =>
      simp [processEvent, hs] at hok
      subst hok
      simp at hf
    | cons call rest =>
      simp [processEvent, hs] at hok
      subst hok
      simp at hf
      subst hf
      exact ⟨rfl, Or.inr (Or.inl rfl)⟩
  | onToolEnd name output =>
    by_cases hn : name == "google_serper"
    · simp [processEvent, hn] at hok
      subst hok
      simp at hf
      subst hf
      exact ⟨rfl, Or.inr (Or.inr rfl)⟩
    · simp [processEvent, hn] at hok
      subst hok
      simp at hf
  | otherEvent event_type =>
    simp [processEvent] at hok
    subst hok
    simp at hf

/-- Every frame of the exception-free prefix is terminated and carries one of
the three in-stream payload types. -/
theorem cleanFrames_mem : ∀ {es : List StreamItem} {f : Frame}, f ∈ cleanFrames es →
    f.terminated = true ∧
    (frameTypeName f = some "content" ∨ frameTypeName f = some "search_start" ∨
     frameTypeName f = some "search_results") := by
  intro es
  induction es with
  | nil => intro f hf; simp [cleanFrames] at hf
  | cons item rest ih =>
    intro f hf
    cases item with
    | error e => simp [cleanFrames] at hf
    | ok ev =>
      cases hpe : processEvent ev with
      | error e => simp [cleanFrames, hpe] at hf
      | ok frames =>
        simp only [cleanFrames, hpe, List.mem_append] at hf
        cases hf with
        | inl hmem => exact processEvent_ok_mem hpe hmem
        | inr hmem => exact ih hmem

/-- The loop's output decomposes into the exception-free prefix followed by
the error frame of the first exception, if any. -/
theorem processEvents_eq_clean_append (es : List StreamItem) :
    processEvents es = cleanFrames es ++ errTailFrames es := by
  induction es with
  | nil => rfl
  | cons item rest ih =>
    cases item with
    | error e => simp [processEvents, cleanFrames, errTailFrames, firstError]
    | ok ev =>
      cases hpe : processEvent ev with
      | error e => simp [processEvents, cleanFrames, errTailFrames, firstError, hpe]
      | ok frames =>
        simp [processEvents, cleanFrames, errTailFrames, firstError, hpe, ih,
          List.append_assoc]

/-- Prepending an exception-free prefix of events prepends its frames. -/
theorem processEvents_append_clean {pre : List StreamItem}
    (hpre : firstError pre = none) (xs : List StreamItem) :
    processEvents (pre ++ xs) = cleanFrames pre ++ processEvents xs := by
  induction pre with
  | nil => simp [cleanFrames]
  | cons item rest ih =>
    cases item with
    | error e => simp [firstError] at hpre
    | ok ev =>
      cases hpe : processEvent ev with
      | error e => simp [firstError, hpe] at hpre
      | ok frames =>
        have hrest : firstError rest = none := by
          simpa [firstError, hpe] using hpre
        simp [processEvents, cleanFrames, hpe, ih hrest, List.append_assoc]

/-- A `filterMap` whose body is an `if`-guarded `some` is a `filter`
followed by a `map`. -/
theorem filterMap_guard {α β : Type} (p : α → Bool) (g : α → β) (l : List α) :
    (l.filterMap fun a => if p a then some (g a) else none) = (l.filter p).map g := by
  induction l with
  | nil => rfl
  | cons a l ih =>
    by_cases h : p a <;> simp [List.filterMap_cons, List.filter_cons, h, ih]

/-- Counting frames of a given payload type: zero when no frame has it. -/
theorem countP_type_eq_zero {l : List Frame} {t : String}
    (h : ∀ f ∈ l, frameTypeName f ≠ some t) :
    l.countP (fun f => frameTypeName f == some t) = 0 := by
  rw [List.countP_eq_zero]
  intro f hf
  simp [h f hf]

/-- Every checkpoint-prefix frame has payload type `checkpoint`. -/
theorem checkpointFrames_mem {cid : Option String} {nid : String} {f : Frame}
    (hf : f ∈ checkpointFrames cid nid) : frameTypeName f = some "checkpoint" := by
  cases cid with
  | none =>
    simp [checkpointFrames] at hf
    subst hf
    rfl
  | some c => simp [checkpointFrames] at hf

/-- Every checkpoint-prefix frame is newline-terminated. -/
theorem checkpointFrames_mem_terminated {cid : Option String} {nid : String} {f : Frame}
    (hf : f ∈ checkpointFrames cid nid) : f.terminated = true := by
  cases cid with
  | none =>
    simp [checkpointFrames] at hf
    subst hf
    rfl
  | some c => simp [checkpointFrames] at hf

/-- No frame of the exception-free prefix carries payload type `t` when `t`
is none of the three in-stream types. -/
theorem cleanFrames_no_type {es : List StreamItem} {t : String}
    (h1 : t ≠ "content") (h2 : t ≠ "search_start") (h3 : t ≠ "search_results") :
    ∀ f ∈ cleanFrames es, frameTypeName f ≠ some t := by
  intro f hf hcontra
  rcases cleanFrames_mem hf with ⟨-, hty | hty | hty⟩ <;> rw [hty] at hcontra
  · exact h1 (Option.some.inj hcontra).symm
  · exact h2 (Option.some.inj hcontra).symm
  · exact h3 (Option.some.inj hcontra).symm

/-! ## Claim theorems -/

/-- C1: for every invocation of the stream generator — normal completion, an
exception raised anywhere during the turn sequence, or an uninitialized
server — the last frame is the one `end`-typed frame of the stream, and when
an exception occurs the one `error`-typed frame is emitted immediately
before that terminal frame. -/
theorem C1_single_terminal_end_frame (graph_ready : Bool) (checkpoint_id : Option String)
    (new_checkpoint_id : String) (events : List StreamItem) :
    (generate_chat_responses graph_ready checkpoint_id new_checkpoint_id events).getLast?
        = some endFrame ∧
    (generate_chat_responses graph_ready checkpoint_id new_checkpoint_id events).countP
        (fun f => frameTypeName f == some "end") = 1 ∧
    (∀ e, graph_ready = true → firstError events = some e →
      ∃ pre, generate_chat_responses graph_ready checkpoint_id new_checkpoint_id events
            = pre ++ [errorFrame e, endFrame] ∧
        (generate_chat_responses graph_ready checkpoint_id new_checkpoint_id events).countP
            (fun f => frameTypeName f == some "error") = 1) := by
  cases graph_ready with
  | false =>
    refine ⟨rfl, rfl, ?_⟩
    intro e hg he
    simp at hg
  | true =>
    have hshape : generate_chat_responses true checkpoint_id new_checkpoint_id events
        = (checkpointFrames checkpoint_id new_checkpoint_id
            ++ (cleanFrames events ++ errTailFrames events)) ++ [endFrame] := by
      simp [generate_chat_responses, processEvents_eq_clean_append, List.append_assoc]
    have hchk : (checkpointFrames checkpoint_id new_checkpoint_id).countP
        (fun f => frameTypeName f == some "end") = 0 :=
      countP_type_eq_zero (fun f hf => by simp [checkpointFrames_mem hf])
    have hchk2 : (checkpointFrames checkpoint_id new_checkpoint_id).countP
        (fun f => frameTypeName f == some "error") = 0 :=
      countP_type_eq_zero (fun f hf => by simp [checkpointFrames_mem hf])
    have hclean : (cleanFrames events).countP
        (fun f => frameTypeName f == some "end") = 0 :=
      countP_type_eq_zero (cleanFrames_no_type (by simp) (by simp) (by simp))
    have hclean2 : (cleanFrames events).countP
        (fun f => frameTypeName f == some "error") = 0 :=
      countP_type_eq_zero (cleanFrames_no_type (by simp) (by simp) (by simp))
    refine ⟨?_, ?_, ?_⟩
    · rw [hshape, List.getLast?_concat]
    · rw [hshape]
      simp only [List.countP_append, hchk, hclean]
      cases he : firstError events with
      | none => simp [errTailFrames, he, List.countP_cons, frameTypeName_endFrame]
      | some e =>
        simp [errTailFrames, he, List.countP_cons, frameTypeName_endFrame,
          frameTypeName_errorFrame]
    · intro e hg he
      refine ⟨checkpointFrames checkpoint_id new_checkpoint_id ++ cleanFrames events, ?_, ?_⟩
      · rw [hshape, errTailFrames, he]
        simp [List.append_assoc]
      · rw [hshape]
        simp only [List.countP_append, hchk2, hclean2]
        simp [errTailFrames, he, List.countP_cons, frameTypeName_endFrame,
          frameTypeName_errorFrame]

/-- C2: a call with no checkpoint identifier emits a `checkpoint` frame
carrying the freshly drawn identifier as the very first frame of the stream,
and the config's `thread_id` is that fresh identifier; a call with a
checkpoint identifier resumes that identifier's conversation (its
`thread_id` is the provided identifier) and emits no `checkpoint` frame. -/
theorem C2_checkpoint_frame_emission (new_checkpoint_id : String) (events : List StreamItem) :
    (generate_chat_responses true none new_checkpoint_id events).head?
        = some (checkpointFrame new_checkpoint_id) ∧
    config_thread_id none new_checkpoint_id = new_checkpoint_id ∧
    (∀ c, config_thread_id (some c) new_checkpoint_id = c) ∧
    (∀ c f, f ∈ generate_chat_responses true (some c) new_checkpoint_id events →
      frameTypeName f ≠ some "checkpoint") := by
  refine ⟨?_, rfl, fun c => rfl, ?_⟩
  · simp [generate_chat_responses, checkpointFrames]
  · intro c f hf hcontra
    have hshape : generate_chat_responses true (some c) new_checkpoint_id events
        = (cleanFrames events ++ errTailFrames events) ++ [endFrame] := by
      simp [generate_chat_responses, checkpointFrames, processEvents_eq_clean_append]
    rw [hshape] at hf
    rcases List.mem_append.mp hf with hmem | hmem
    · rcases List.mem_append.mp hmem with hmem2 | hmem2
      · exact cleanFrames_no_type (by simp) (by simp) (by simp) f hmem2 hcontra
      · rcases he : firstError events with _ | e <;> rw [errTailFrames, he] at hmem2
        · simp at hmem2
        · simp at hmem2
          subst hmem2
          rw [frameTypeName_errorFrame] at hcontra
          simp at hcontra
    · simp at hmem
      subst hmem
      rw [frameTypeName_endFrame] at hcontra
      simp at hcontra

/-- C5: while the graph is uninitialized the stream is exactly an `error`
frame whose message is "Server not ready. Please try again." followed by the
`end` frame, independently of the event stream (no model invocation). -/
theorem C5_server_not_ready (checkpoint_id : Option String) (new_checkpoint_id : String)
    (events : List StreamItem) :
    generate_chat_responses false checkpoint_id new_checkpoint_id events
        = [notReadyFrame, endFrame] ∧
    notReadyFrame.payload = Json.obj [("type", Json.str "error"),
        ("error", Json.str "Server not ready. Please try again.")] ∧
    frameTypeName notReadyFrame = some "error" ∧
    frameTypeName endFrame = some "end" := ⟨rfl, rfl, rfl, rfl⟩

/-- C3: the `search_results` frame of a search-tool completion carries the
urls computed by the extraction policy: a dict output with an `organic` list
yields the `link` values of its dict entries, a list output yields each dict
entry's `link`-or-`url` value, always at most 8 entries, and an output that
fails to parse or is neither dict-with-`organic` nor a list yields exactly
the empty list. -/
theorem C3_url_extraction_policy (output : RawOutput) :
    processEvent (Event.onToolEnd "google_serper" output)
        = Except.ok [searchResultsFrame (extract_urls output)] ∧
    (extract_urls output).length ≤ 8 ∧
    (∀ s, output = RawOutput.str s → loads s = none → extract_urls output = []) ∧
    (∀ kvs entries, parse_output output = some (Json.obj kvs) →
      lookupJ kvs "organic" = some (Json.arr entries) →
      extract_urls output = (entries.filterMap organicLink).take 8) ∧
    (∀ items, parse_output output = some (Json.arr items) →
      extract_urls output = (items.filterMap linkOrUrl).take 8) ∧
    (∀ parsed, parse_output output = some parsed →
      (match parsed with
       | Json.obj kvs => lookupJ kvs "organic" = none
       | Json.arr _ => False
       | _ => True) →
      extract_urls output = []) := by
  have hbound : ∀ parsed : Json, (extract_from_parsed parsed).length ≤ 8 := by
    intro parsed
    cases parsed with
    | obj kvs =>
      rcases horg : lookupJ kvs "organic" with _ | j
      · simp [extract_from_parsed, horg]
      · cases j <;> simp [extract_from_parsed, horg, List.length_take]
    | arr items => simp [extract_from_parsed, List.length_take]
    | null => simp [extract_from_parsed]
    | bool b => simp [extract_from_parsed]
    | num n => simp [extract_from_parsed]
    | str s => simp [extract_from_parsed]
  refine ⟨rfl, ?_, ?_, ?_, ?_, ?_⟩
  · rcases hp : parse_output output with _ | parsed
    · simp [extract_urls, hp]
    · simpa [extract_urls, hp] using hbound parsed
  · intro s hs hnone
    subst hs
    simp [extract_urls, parse_output, hnone]
  · intro kvs entries hp horg
    simp [extract_urls, hp, extract_from_parsed, horg]
  · intro items hp
    simp [extract_urls, hp, extract_from_parsed]
  · intro parsed hp hshape
    cases parsed with
    | obj kvs => simp [extract_urls, hp, extract_from_parsed, hshape]
    | arr items => exact absurd hshape (by simp)
    | null => simp [extract_urls, hp, extract_from_parsed]
    | bool b => simp [extract_urls, hp, extract_from_parsed]
    | num n => simp [extract_urls, hp, extract_from_parsed]
    | str s => simp [extract_urls, hp, extract_from_parsed]

/-- C8: a model-turn-complete event whose output contains search-tool
invocations yields exactly one `search_start` frame carrying the first
matching invocation's `query` argument (defaulting to the empty string), the
later matching invocations being ignored; a turn with no search-tool
invocation yields no frame. -/
theorem C8_search_start_first_invocation (output : ModelOutput) :
    (∀ call rest,
      (output.tool_calls.getD []).filter (fun c => c.name == "google_serper") = call :: rest →
      processEvent (Event.onChatModelEnd output)
        = Except.ok [searchStartFrame ((lookupJ call.args "query").getD (Json.str ""))]) ∧
    ((output.tool_calls.getD []).filter (fun c => c.name == "google_serper") = [] →
      processEvent (Event.onChatModelEnd output) = Except.ok []) := by
  constructor
  · intro call rest hfilter
    simp [processEvent, hfilter]
  · intro hfilter
    simp [processEvent, hfilter]

/-- C9: in the list branch of the extraction policy, a dict entry with no
truthy `link` and no `url` contributes the empty string to the urls list,
while non-dict entries are omitted entirely. -/
theorem C9_empty_string_url_entries (items : List Json) :
    extract_from_parsed (Json.arr items) = (items.filterMap linkOrUrl).take 8 ∧
    (∀ kvs, (∀ v, lookupJ kvs "link" = some v → pyTruthy v = false) →
      lookupJ kvs "url" = none → linkOrUrl (Json.obj kvs) = some (Json.str "")) ∧
    (∀ s, linkOrUrl (Json.str s) = none) ∧
    (∀ xs, linkOrUrl (Json.arr xs) = none) ∧
    (∀ n, linkOrUrl (Json.num n) = none) ∧
    (∀ b, linkOrUrl (Json.bool b) = none) ∧
    linkOrUrl Json.null = none := by
  refine ⟨rfl, ?_, fun s => rfl, fun xs => rfl, fun n => rfl, fun b => rfl, rfl⟩
  intro kvs hlink hurl
  rcases hl : lookupJ kvs "link" with _ | v
  · simp [linkOrUrl, hl, hurl, pyTruthy]
  · have hv := hlink v hl
    simp [linkOrUrl, hl, hv, hurl]

/-- C6: the turn router transitions to tool execution exactly when the last
message carries a `tool_calls` attribute of nonzero length, and to the
terminal state otherwise; tool execution always returns to the model node,
the terminal node has no successor, and the entry point is the model node. -/
theorem C6_turn_state_machine (state : State) (h : state.messages ≠ []) :
    (next_node state h Node.model = some Node.tool_node ↔
      ∃ tool_calls, (state.messages.getLast h).tool_calls = some tool_calls ∧
        0 < tool_calls.length) ∧
    (next_node state h Node.model = some Node.terminal ↔
      ¬∃ tool_calls, (state.messages.getLast h).tool_calls = some tool_calls ∧
        0 < tool_calls.length) ∧
    next_node state h Node.tool_node = some Node.model ∧
    next_node state h Node.terminal = none ∧
    entry_point = Node.model ∧
    (tools_router state h = "tool_node" ∨ tools_router state h = END) := by
  have hrouter : tools_router state h = "tool_node" ↔
      ∃ tool_calls, (state.messages.getLast h).tool_calls = some tool_calls ∧
        0 < tool_calls.length := by
    rcases htc : (state.messages.getLast h).tool_calls with _ | tcs
    · simp [tools_router, htc, END]
    · by_cases hlen : tcs.length > 0
      · simp [tools_router, htc, hlen]
      · simp [tools_router, htc, hlen, END]
  have hrange : tools_router state h = "tool_node" ∨ tools_router state h = END := by
    rcases htc : (state.messages.getLast h).tool_calls with _ | tcs
    · exact Or.inr (by simp [tools_router, htc])
    · by_cases hlen : tcs.length > 0
      · exact Or.inl (by simp [tools_router, htc, hlen])
      · exact Or.inr (by simp [tools_router, htc, hlen])
  by_cases hr : tools_router state h = "tool_node"
  · refine ⟨?_, ?_, rfl, rfl, rfl, Or.inl hr⟩
    · exact ⟨fun _ => hrouter.mp hr, fun _ => by simp [next_node, hr]⟩
    · constructor
      · intro heq
        simp [next_node, hr] at heq
      · intro hne
        exact absurd (hrouter.mp hr) hne
  · refine ⟨?_, ?_, rfl, rfl, rfl, Or.inr (Or.resolve_left hrange hr)⟩
    · constructor
      · intro heq
        simp [next_node, hr] at heq
      · intro hex
        exact absurd (hrouter.mpr hex) hr
    · exact ⟨fun _ hex => hr (hrouter.mpr hex), fun _ => by simp [next_node, hr]⟩

/-- Witness for C6 at a concrete state whose last message carries one
pending search tool call: the router transitions to the tool node. -/
theorem C6_turn_state_machine_witness :
    next_node ⟨[⟨Json.str "hi", some [⟨"google_serper", [("query", Json.str "q")], "call1"⟩]⟩]⟩
        (List.cons_ne_nil _ _) Node.model = some Node.tool_node :=
  (C6_turn_state_machine _ (List.cons_ne_nil _ _)).1.mpr
    ⟨[⟨"google_serper", [("query", Json.str "q")], "call1"⟩], rfl, by simp⟩

/-- C7: the tool executor produces exactly one `ToolMessage` per
`google_serper` invocation — content the `json.dumps` of the search
collaborator's result for the `query` argument (defaulting to the empty
string), tagged with the invocation id and tool name — and silently drops
every invocation with another tool name. -/
theorem C7_tool_executor (state : State) (h : state.messages ≠ [])
    (serper_results : Json → Json) (tool_calls : List ToolCall)
    (htc : (state.messages.getLast h).tool_calls = some tool_calls) :
    tool_node state h serper_results
      = (tool_calls.filter (fun tc => tc.name == "google_serper")).map
          (fun tc =>
            { content := dumps (serper_results ((lookupJ tc.args "query").getD (Json.str "")))
              tool_call_id := tc.id
              name := tc.name }) ∧
    (tool_node state h serper_results).length
      = (tool_calls.filter (fun tc => tc.name == "google_serper")).length := by
  have heq : tool_node state h serper_results
      = (tool_calls.filter (fun tc => tc.name == "google_serper")).map
          (fun tc =>
            { content := dumps (serper_results ((lookupJ tc.args "query").getD (Json.str "")))
              tool_call_id := tc.id
              name := tc.name }) := by
    unfold tool_node
    rw [htc, Option.getD_some]
    exact filterMap_guard _ _ tool_calls
  exact ⟨heq, by rw [heq, List.length_map]⟩

/-- Witness for C7: one search call (with a query) and one unrecognized call
produce exactly one `ToolMessage`, for the search call. -/
theorem C7_tool_executor_witness :
    tool_node ⟨[⟨Json.str "m", some [⟨"google_serper", [("query", Json.str "q")], "id1"⟩,
            ⟨"other_tool", [], "id2"⟩]⟩]⟩
        (List.cons_ne_nil _ _) (fun q => Json.arr [q])
      = [{ content := dumps (Json.arr [Json.str "q"])
           tool_call_id := "id1"
           name := "google_serper" }] := by
  have happ := C7_tool_executor ⟨[⟨Json.str "m",
    some [⟨"google_serper", [("query", Json.str "q")], "id1"⟩, ⟨"other_tool", [], "id2"⟩]⟩]⟩
    (List.cons_ne_nil _ _) (fun q => Json.arr [q]) _ rfl
  rw [happ.1]
  rfl

/-- Counterexample to C4 as stated: in the uninitialized-server stream the
first (error) frame is yielded without the `"\n\n"` terminator, so not every
frame has the exact shape `data: <json>\n\n`. -/
theorem C4_counterexample :
    (generate_chat_responses false none "cid" []).map frameWire
      = ["data: \x7b\"type\": \"error\", \"error\": \"Server not ready. Please try again.\"\x7d",
         "data: \x7b\"type\": \"end\"\x7d\n\n"] ∧
    frameWire notReadyFrame ≠ "data: " ++ dumps notReadyFrame.payload ++ "\n\n" := by
  refine ⟨rfl, ?_⟩
  decide

/-- C4 amended: every frame carries a JSON payload with a `type`
discriminator, and every frame except the uninitialized-server error frame
has the exact wire shape `data: <json>\n\n`; that one frame is emitted as
`data: <json>` with no trailing blank line. -/
theorem C4_frame_wire_format (graph_ready : Bool) (checkpoint_id : Option String)
    (new_checkpoint_id : String) (events : List StreamItem) (f : Frame)
    (hf : f ∈ generate_chat_responses graph_ready checkpoint_id new_checkpoint_id events) :
    (frameTypeName f).isSome = true ∧
    (frameWire f = "data: " ++ dumps f.payload ++ "\n\n" ∨
      (graph_ready = false ∧ f = notReadyFrame ∧
        frameWire f = "data: " ++ dumps f.payload)) := by
  have hterm : ∀ g : Frame, g.terminated = true →
      frameWire g = "data: " ++ dumps g.payload ++ "\n\n" := by
    intro g hg
    simp [frameWire, hg]
  cases graph_ready with
  | false =>
    simp [generate_chat_responses] at hf
    rcases hf with hf | hf <;> subst hf
    · exact ⟨rfl, Or.inr ⟨rfl, rfl, rfl⟩⟩
    · exact ⟨rfl, Or.inl (hterm _ rfl)⟩
  | true =>
    simp only [generate_chat_responses, if_true] at hf
    rcases List.mem_append.mp hf with hmem | hmem
    · rcases List.mem_append.mp hmem with h2 | h2
      · have hty := checkpointFrames_mem h2
        have ht := checkpointFrames_mem_terminated h2
        exact ⟨by simp [hty], Or.inl (hterm f ht)⟩
      · rw [processEvents_eq_clean_append] at h2
        rcases List.mem_append.mp h2 with h3 | h3
        · obtain ⟨hterm3, hty3⟩ := cleanFrames_mem h3
          refine ⟨?_, Or.inl (hterm f hterm3)⟩
          rcases hty3 with hty3 | hty3 | hty3 <;> simp [hty3]
        · rcases he : firstError events with _ | e <;> rw [errTailFrames, he] at h3
          · simp at h3
          · simp at h3
            subst h3
            exact ⟨rfl, Or.inl (hterm _ rfl)⟩
    · simp at hmem
      subst hmem
      exact ⟨rfl, Or.inl (hterm _ rfl)⟩

/-- Witness for the amended C4 at the terminal frame of the
uninitialized-server stream. -/
theorem C4_frame_wire_format_witness :
    (frameTypeName endFrame).isSome = true ∧
    (frameWire endFrame = "data: " ++ dumps endFrame.payload ++ "\n\n" ∨
      (false = false ∧ endFrame = notReadyFrame ∧
        frameWire endFrame = "data: " ++ dumps endFrame.payload)) :=
  C4_frame_wire_format false none "cid" [] endFrame
    (List.mem_cons_of_mem _ (List.mem_cons_self _ _))

/-- C10: a token-stream event whose chunk is not an `AIMessageChunk` makes
the serializer raise a `TypeError`, which surfaces as an `error` frame
followed by the terminal `end` frame; the event is not silently dropped and
no event after it is processed. -/
theorem C10_bad_chunk_type_error (checkpoint_id : Option String) (new_checkpoint_id : String)
    (typeName : String) (pre rest : List StreamItem)
    (hpre : firstError pre = none) :
    serialise_ai_message_chunk (Chunk.other typeName)
      = Except.error ("Object of type " ++ typeName
          ++ " is not correctly formatted for serialisation") ∧
    generate_chat_responses true checkpoint_id new_checkpoint_id
        (pre ++ Except.ok (Event.onChatModelStream (Chunk.other typeName)) :: rest)
      = checkpointFrames checkpoint_id new_checkpoint_id ++ cleanFrames pre
          ++ [errorFrame ("Object of type " ++ typeName
                ++ " is not correctly formatted for serialisation"), endFrame] := by
  refine ⟨rfl, ?_⟩
  have hbad : processEvents (Except.ok (Event.onChatModelStream (Chunk.other typeName)) :: rest)
      = [errorFrame ("Object of type " ++ typeName
          ++ " is not correctly formatted for serialisation")] := by
    simp [processEvents, processEvent, serialise_ai_message_chunk]
  simp [generate_chat_responses, processEvents_append_clean hpre, hbad, List.append_assoc]

/-- Witness for C10: a concrete stream with no prior frames, a non-chunk
token event, and one further event that is never processed. -/
theorem C10_bad_chunk_type_error_witness :
    serialise_ai_message_chunk (Chunk.other "ToolMessage")
      = Except.error ("Object of type " ++ "ToolMessage"
          ++ " is not correctly formatted for serialisation") ∧
    generate_chat_responses true none "cid1"
        ([] ++ Except.ok (Event.onChatModelStream (Chunk.other "ToolMessage"))
            :: [Except.ok (Event.otherEvent "on_chain_start")])
      = checkpointFrames none "cid1" ++ cleanFrames []
          ++ [errorFrame ("Object of type " ++ "ToolMessage"
                ++ " is not correctly formatted for serialisation"), endFrame] :=
  C10_bad_chunk_type_error none "cid1" "ToolMessage" []
    [Except.ok (Event.otherEvent "on_chain_start")] rfl

end Searchly
